import Mathlib

/-
Verification of the sedori retail-arbitrage decision engine.

Shallow embedding of the Python sources:
  src/common/models.py, src/common/profit.py, src/common/rate_limit.py,
  src/services/profit_calculator.py, src/services/keepa_api.py,
  src/services/amazon_sp_api.py, src/agents/scrape/pipeline.py.

Python `Decimal` values are embedded as `ℚ` (exact base-10 fixed point is a
subset of the rationals, and all operations used by the code - add, sub, mul,
div, quantize with ROUND_HALF_UP - are exact rational operations at the
precision the code uses).  Monotonic clock readings are `ℚ` parameters,
timestamps of Keepa points are minutes since the Keepa epoch as `ℤ`.
-/

namespace Sedori

/-! ## Money model (src/common/profit.py) -/

/-- Python `Decimal.quantize(_, rounding=ROUND_HALF_UP)` rounds to the nearest
multiple of the quantum with ties away from zero; this is the integer part. -/
def roundHalfUp (x : ℚ) : ℤ :=
  if 0 ≤ x then ⌊x + 1/2⌋ else -⌊-x + 1/2⌋

/-- `quantize_money` from src/common/profit.py: `value.quantize(quantum, ROUND_HALF_UP)`. -/
def quantize_money (value : ℚ) (quantum : ℚ) : ℚ :=
  (roundHalfUp (value / quantum)) * quantum

/-- `RATIO_QUANTUM = Decimal("0.0001")` from src/common/profit.py. -/
def RATIO_QUANTUM : ℚ := 1/10000

/-- `quantize_ratio` from src/common/profit.py. -/
def quantize_ratio (value : ℚ) : ℚ := quantize_money value RATIO_QUANTUM

/-! ## Data model (src/common/models.py) -/

/-- Python truthiness of an `Optional[str]`: `None` and `""` are falsy. -/
def pyTruthy : Option String → Bool
  | none => false
  | some s => !s.isEmpty

/-- `ProductQuery` from src/common/models.py. -/
structure ProductQuery where
  asin : Option String := none
  barcode : Option String := none
deriving DecidableEq, Repr

/-- `ProductQuery.__post_init__`: construction raises `ValueError` when
`not (self.asin or self.barcode)`, i.e. when both identifiers are falsy. -/
def mkProductQuery (asin barcode : Option String) : Except String ProductQuery :=
  if !(pyTruthy asin || pyTruthy barcode) then
    .error "Either asin or barcode must be provided"
  else
    .ok { asin := asin, barcode := barcode }

/-- Whether `ProductQuery(asin, barcode)` constructs without raising. -/
def mkProductQuerySucceeds (asin barcode : Option String) : Bool :=
  match mkProductQuery asin barcode with
  | .ok _ => true
  | .error _ => false

/-- `CompetitivePrice` from src/common/models.py (`last_updated` as epoch seconds). -/
structure CompetitivePrice where
  condition : String
  seller_id : String
  landed_price : ℚ
  shipping : ℚ
  last_updated : ℤ
deriving DecidableEq, Repr

/-- `KeepaPriceSnapshot` from src/common/models.py. -/
structure KeepaPriceSnapshot where
  current_price : ℚ
  average_price_30d : ℚ
  lowest_price_30d : ℚ
  highest_price_30d : ℚ
  sales_rank : Option ℤ := none
  currency : String := "JPY"
  title : Option String := none
  image_urls : List String := []
deriving DecidableEq, Repr

/-- `FeeBreakdown` exactly as defined in src/common/models.py lines 42-58:
five required components, no defaults. -/
structure FeeBreakdown where
  referral_fee : ℚ
  closing_fee : ℚ
  fba_fee : ℚ
  shipping_fee : ℚ
  taxes : ℚ
deriving DecidableEq, Repr

/-- The `total` property of the `FeeBreakdown` in src/common/models.py:
the sum of its five components. -/
def FeeBreakdown.total (fb : FeeBreakdown) : ℚ :=
  fb.referral_fee + fb.closing_fee + fb.fba_fee + fb.shipping_fee + fb.taxes

/-- Modelled from the spec: the ten-component `FeeBreakdown` (section 3 of the
spec) that src/services/profit_calculator.py, src/services/amazon_sp_api.py,
src/agents/scrape/pipeline.py and the repository's tests all construct by
keyword, but which is missing from src/common/models.py (that file holds a
divergent five-component variant).  Zero defaults match the zero-argument
construction `FeeBreakdown()` in the pipeline. -/
structure FeeBreakdownFull where
  referral_fee : ℚ := 0
  closing_fee : ℚ := 0
  fba_fee : ℚ := 0
  inbound_shipping : ℚ := 0
  packaging_materials : ℚ := 0
  storage_fee : ℚ := 0
  taxes : ℚ := 0
  fx_spread : ℚ := 0
  returns_cost : ℚ := 0
  other_costs : ℚ := 0
deriving DecidableEq, Repr

/-- Modelled from the spec: `total` of the ten-component breakdown is the sum
of its ten components. -/
def FeeBreakdownFull.total (fb : FeeBreakdownFull) : ℚ :=
  fb.referral_fee + fb.closing_fee + fb.fba_fee + fb.inbound_shipping +
  fb.packaging_materials + fb.storage_fee + fb.taxes + fb.fx_spread +
  fb.returns_cost + fb.other_costs

/-- Modelled from the spec: `ProfitAnalysis` with the `total_cost` field that
src/services/profit_calculator.py fills in; the `ProfitAnalysis` in
src/common/models.py lacks it. -/
structure ProfitAnalysis where
  selling_price : ℚ
  purchase_cost : ℚ
  fees : FeeBreakdownFull
  total_cost : ℚ
  profit : ℚ
  roi : ℚ
  margin : ℚ
deriving DecidableEq, Repr

/-- `PurchaseDecision` from src/common/models.py. -/
structure PurchaseDecision where
  is_profitable : Bool
  meets_thresholds : Bool
  reasons : List String := []
deriving DecidableEq, Repr

/-- `ServiceFlags` (observability flags carried by every service result). -/
structure ServiceFlags where
  degraded : Bool := false
  cached : Bool := false
  circuit_open : Bool := false
  reason : Option String := none
deriving DecidableEq, Repr

/-! ## Profit calculator (src/services/profit_calculator.py) -/

/-- `_safe_divide` from src/services/profit_calculator.py. -/
def safe_divide (numerator denominator : ℚ) : ℚ :=
  if denominator = 0 then 0 else numerator / denominator

/-- `calculate_profit` from src/services/profit_calculator.py.  On `ℚ` no
`InvalidOperation` can arise, so the function is total. -/
def calculate_profit (selling_price purchase_cost : ℚ) (fees : FeeBreakdownFull)
    (rounding : ℚ) : ProfitAnalysis :=
  let total_cost := purchase_cost + fees.total
  let profit := selling_price - total_cost
  let roi := safe_divide profit purchase_cost
  let margin := safe_divide profit selling_price
  let quantized_fees : FeeBreakdownFull :=
    { referral_fee := quantize_money fees.referral_fee rounding
      closing_fee := quantize_money fees.closing_fee rounding
      fba_fee := quantize_money fees.fba_fee rounding
      inbound_shipping := quantize_money fees.inbound_shipping rounding
      packaging_materials := quantize_money fees.packaging_materials rounding
      storage_fee := quantize_money fees.storage_fee rounding
      taxes := quantize_money fees.taxes rounding
      fx_spread := quantize_money fees.fx_spread rounding
      returns_cost := quantize_money fees.returns_cost rounding
      other_costs := quantize_money fees.other_costs rounding }
  { selling_price := quantize_money selling_price rounding
    purchase_cost := quantize_money purchase_cost rounding
    fees := quantized_fees
    total_cost := quantize_money total_cost rounding
    profit := quantize_money profit rounding
    roi := quantize_ratio roi
    margin := quantize_ratio margin }

/-! ## Rate-limit primitives (src/common/rate_limit.py) -/

/-- Marker for the `BudgetExceeded` exception. -/
inductive BudgetErr where
  | budgetExceeded
deriving DecidableEq, Repr

/-- `RequestBudget`: a `defaultdict(int)` of consumed counts per key. -/
structure RequestBudget where
  counts : String → ℕ

/-- The fresh budget created by `RequestBudget.__init__`. -/
def RequestBudget.init : RequestBudget := ⟨fun _ => 0⟩

/-- `RequestBudget.consume`: fails with `BudgetExceeded` once the consumed
count has reached the limit, otherwise increments and returns the remainder. -/
def RequestBudget.consume (b : RequestBudget) (key : String) (limit : ℕ) :
    Except BudgetErr (ℕ × RequestBudget) :=
  let consumed := b.counts key
  if consumed ≥ limit then
    .error .budgetExceeded
  else
    let c := consumed + 1
    .ok (limit - c, ⟨Function.update b.counts key c⟩)

/-- Whether a single `consume` call on budget `b` succeeds. -/
def RequestBudget.consumeOk (b : RequestBudget) (key : String) (limit : ℕ) : Bool :=
  match b.consume key limit with
  | .ok _ => true
  | .error _ => false

/-- Run `n` successive `budget.consume(key, limit)` calls (a failed call
leaves the budget unchanged); returns the final budget and the number of
calls that succeeded. -/
def consumeRuns (b : RequestBudget) (key : String) (limit : ℕ) : ℕ → RequestBudget × ℕ
  | 0 => (b, 0)
  | n + 1 =>
    let (b1, s) := consumeRuns b key limit n
    match b1.consume key limit with
    | .ok (_, b2) => (b2, s + 1)
    | .error _ => (b1, s)

/-- `CircuitBreaker` state from src/common/rate_limit.py (defaults
`failure_threshold=3`, `cooldown_seconds=30.0`). -/
structure CircuitBreaker where
  failure_threshold : ℕ := 3
  cooldown_seconds : ℚ := 30
  failures : ℕ := 0
  opened_at : Option ℚ := none
deriving DecidableEq, Repr

/-- `CircuitBreaker.allow` at monotonic time `now`: `none` models raising
`CircuitOpen`; `some cb` is the (possibly reset) state after permitting. -/
def CircuitBreaker.allow (cb : CircuitBreaker) (now : ℚ) : Option CircuitBreaker :=
  match cb.opened_at with
  | none => some cb
  | some t0 =>
    if now - t0 ≥ cb.cooldown_seconds then
      some { cb with failures := 0, opened_at := none }
    else
      none

/-- `CircuitBreaker.record_success`. -/
def CircuitBreaker.record_success (cb : CircuitBreaker) : CircuitBreaker :=
  { cb with failures := 0, opened_at := none }

/-- `CircuitBreaker.record_failure` at monotonic time `now`. -/
def CircuitBreaker.record_failure (cb : CircuitBreaker) (now : ℚ) : CircuitBreaker :=
  let f := cb.failures + 1
  if f ≥ cb.failure_threshold then
    { cb with failures := f, opened_at := some now }
  else
    { cb with failures := f }

/-! ## Keepa compact-series decoding (src/services/keepa_api.py) -/

/-- Series-name priority for prices (`PRICE_SERIES_PRIORITY`). -/
def PRICE_SERIES_PRIORITY : List (List String) :=
  [["AMAZON", "0"], ["NEW", "1", "NEW_FBA", "NEW_SHIPPING"],
   ["BUY_BOX_SHIPPING", "BUY_BOX", "16"]]

/-- Series-name keys for sales rank (`RANK_SERIES_KEYS`). -/
def RANK_SERIES_KEYS : List String := ["SALES", "SALES_RANK", "RANK", "3"]

/-- `MIN_WINDOW_POINTS = 2`. -/
def MIN_WINDOW_POINTS : ℕ := 2

/-- The raw `csv` field of a Keepa product: a JSON object (name to integer
sequence), a flat integer list, or anything else / absent. -/
inductive CsvField where
  | dict (entries : List (String × List ℤ))
  | flat (values : List ℤ)
  | absent
deriving DecidableEq, Repr

/-- Python `str.upper()` (the series keys in play are ASCII). -/
def pyUpper (s : String) : String := ⟨s.data.map Char.toUpper⟩

/-- Python-dict insertion with string key: a later assignment to the same key
overwrites the earlier value. -/
def dictInsert (m : List (String × List ℤ)) (k : String) (v : List ℤ) :
    List (String × List ℤ) :=
  (m.filter (fun e => e.1 ≠ k)) ++ [(k, v)]

/-- `_normalize_csv_map`: upper-cases the keys of a dict-shaped `csv`, wraps a
flat list as the single series `"DEFAULT"`, and drops anything else. -/
def _normalize_csv_map : CsvField → List (String × List ℤ)
  | .dict entries => entries.foldl (fun m e => dictInsert m (pyUpper e.1) e.2) []
  | .flat values => [("DEFAULT", values)]
  | .absent => []

/-- Inner loop of `_select_series`: first alias whose (upper-cased) key is
present with a non-empty series. -/
def selectAlias (m : List (String × List ℤ)) : List String → Option (List ℤ)
  | [] => none
  | a :: rest =>
    match m.lookup (pyUpper a) with
    | some s => if s ≠ [] then some s else selectAlias m rest
    | none => selectAlias m rest

/-- `_select_series` over the priority groups. -/
def _select_series (m : List (String × List ℤ)) : List (List String) → Option (List ℤ)
  | [] => none
  | aliases :: rest =>
    match selectAlias m aliases with
    | some s => some s
    | none => _select_series m rest

/-- Loop of `_decode_compact_series`: the first minutes component is absolute,
later ones are deltas added to the running cursor; a trailing minutes
component without a value is dropped. -/
def decodeCompactAux : Option ℤ → List ℤ → List (ℤ × ℤ)
  | _, [] => []
  | _, [_] => []
  | acc, m :: v :: rest =>
    let a := match acc with | none => m | some a0 => a0 + m
    (a, v) :: decodeCompactAux (some a) rest

/-- `_decode_compact_series`: timestamps are minutes since the Keepa epoch. -/
def _decode_compact_series (series : List ℤ) : List (ℤ × ℤ) :=
  decodeCompactAux none series

/-- `_quantize_price`: non-positive sentinel becomes 0, otherwise
`(value/100).quantize(0.01, ROUND_HALF_UP)`. -/
def _quantize_price (value : ℤ) : ℚ :=
  if value ≤ 0 then 0 else quantize_money ((value : ℚ) / 100) (1/100)

/-- Stable insertion into an ascending list (ties keep original order, like
Python `sorted`). -/
def insertAsc (x : ℚ) : List ℚ → List ℚ
  | [] => [x]
  | y :: ys => if x < y then x :: y :: ys else y :: insertAsc x ys

/-- Python `sorted` on a list of decimals. -/
def pySorted (l : List ℚ) : List ℚ := l.foldl (fun acc x => insertAsc x acc) []

/-- Stable insertion into an ascending integer list. -/
def insertAscInt (x : ℤ) : List ℤ → List ℤ
  | [] => [x]
  | y :: ys => if x < y then x :: y :: ys else y :: insertAscInt x ys

/-- Python `sorted` on a list of integers. -/
def pySortedInt (l : List ℤ) : List ℤ := l.foldl (fun acc x => insertAscInt x acc) []

/-- `_median_decimal`: middle element, or the half-up-quantized mean of the
two middle elements for an even count. -/
def _median_decimal (values : List ℚ) : ℚ :=
  if values = [] then 0
  else
    let sorted_values := pySorted values
    let count := sorted_values.length
    let mid := count / 2
    if count % 2 = 1 then sorted_values.getD mid 0
    else quantize_money ((sorted_values.getD (mid - 1) 0 + sorted_values.getD mid 0) / 2) (1/100)

/-- `_percentile_decimal` with linear interpolation; the float expression
`(len-1)*percentile` is modelled at exact rational precision. -/
def _percentile_decimal (values : List ℚ) (percentile : ℚ) : ℚ :=
  if values = [] then 0
  else if values.length = 1 then values.getD 0 0
  else
    let sorted_values := pySorted values
    let rank : ℚ := ((sorted_values.length : ℚ) - 1) * percentile
    let lower_index : ℕ := (⌊rank⌋).toNat
    let upper_index : ℕ := min (lower_index + 1) (sorted_values.length - 1)
    let fraction : ℚ := rank - (lower_index : ℚ)
    let lower_value := sorted_values.getD lower_index 0
    let upper_value := sorted_values.getD upper_index 0
    quantize_money (lower_value + (upper_value - lower_value) * fraction) (1/100)

/-- Stable insertion for descending sort by timestamp (ties keep original
order, like Python `sorted(..., reverse=True)`). -/
def insertDescByTs (x : ℤ × ℤ) : List (ℤ × ℤ) → List (ℤ × ℤ)
  | [] => [x]
  | y :: ys => if x.1 > y.1 then x :: y :: ys else y :: insertDescByTs x ys

/-- Python `sorted(points, key=ts, reverse=True)`. -/
def sortByTsDesc (l : List (ℤ × ℤ)) : List (ℤ × ℤ) :=
  l.foldl (fun acc x => insertDescByTs x acc) []

/-- First strictly positive value in a point list. -/
def firstPositive : List (ℤ × ℤ) → Option ℤ
  | [] => none
  | p :: rest => if p.2 > 0 then some p.2 else firstPositive rest

/-- `_latest_price`: latest (by timestamp) positive value, quantized. -/
def _latest_price (points : List (ℤ × ℤ)) : Option ℚ :=
  (firstPositive (sortByTsDesc points)).map _quantize_price

/-- `_latest_positive`: latest (by timestamp) positive value as an integer. -/
def _latest_positive (points : List (ℤ × ℤ)) : Option ℤ :=
  firstPositive (sortByTsDesc points)

/-- Python `round` (banker's rounding, ties to even), used by `_median_int`. -/
def roundHalfEven (x : ℚ) : ℤ :=
  let f := ⌊x⌋
  let frac := x - (f : ℚ)
  if frac < 1/2 then f
  else if frac > 1/2 then f + 1
  else if f % 2 = 0 then f else f + 1

/-- `_median_int`: `int(round((a + b) / 2))` for the even case. -/
def _median_int (values : List ℤ) : ℤ :=
  if values = [] then 0
  else
    let sorted_values := pySortedInt values
    let count := sorted_values.length
    let mid := count / 2
    if count % 2 = 1 then sorted_values.getD mid 0
    else roundHalfEven (((sorted_values.getD (mid - 1) 0 + sorted_values.getD mid 0) : ℚ) / 2)

/-- 30 days in minutes: the window cutoff is `now - timedelta(days=30)`. -/
def THIRTY_DAYS_MINUTES : ℤ := 43200

/-- The 30-day window: `ts >= cutoff and value > 0`. -/
def windowPoints (now : ℤ) (points : List (ℤ × ℤ)) : List (ℤ × ℤ) :=
  points.filter (fun p => decide (p.1 ≥ now - THIRTY_DAYS_MINUTES) && decide (p.2 > 0))

/-- All positive points of the whole series (the fallback set). -/
def positivePoints (points : List (ℤ × ℤ)) : List (ℤ × ℤ) :=
  points.filter (fun p => decide (p.2 > 0))

/-- The flags returned on every insufficient-data path. -/
def insufficientDataFlags : ServiceFlags :=
  { degraded := true, reason := some "keepa_insufficient_data" }

/-- `_PriceSummary` from src/services/keepa_api.py. -/
structure PriceSummary where
  current : ℚ
  median : ℚ
  p10 : ℚ
  p90 : ℚ
  insufficient : Bool
deriving DecidableEq, Repr

/-- The point set the statistics are computed from: the `window_points`
variable after the `if not window_points` fallback in `_build_price_summary`. -/
def fallbackWindow (now : ℤ) (points : List (ℤ × ℤ)) : List (ℤ × ℤ) :=
  let window0 := windowPoints now points
  if window0 = [] then positivePoints points else window0

/-- The summary `_build_price_summary` assembles once the (post-fallback)
point set is non-empty. -/
def summaryFrom (points base : List (ℤ × ℤ)) (insufficient : Bool) : PriceSummary :=
  let prices := base.map (fun p => _quantize_price p.2)
  let prices_sorted := pySorted prices
  let median := _median_decimal prices_sorted
  let p10 := _percentile_decimal prices_sorted (1/10)
  let p90 := _percentile_decimal prices_sorted (9/10)
  let latest_price :=
    match _latest_price points with
    | some d => if d ≠ 0 then d else prices_sorted.getLastD 0
    | none => prices_sorted.getLastD 0
  { current := latest_price, median := median, p10 := p10, p90 := p90,
    insufficient := insufficient }

/-- `_build_price_summary` (with `datetime.now` passed in as `now`, in minutes
since the Keepa epoch). -/
def _build_price_summary (now : ℤ) (csv_map : List (String × List ℤ)) :
    Option PriceSummary × ServiceFlags :=
  match _select_series csv_map PRICE_SERIES_PRIORITY with
  | none => (none, insufficientDataFlags)
  | some series =>
    let points := _decode_compact_series series
    if points = [] then (none, insufficientDataFlags)
    else
      let insufficient_window := (windowPoints now points).length < MIN_WINDOW_POINTS
      let window_points := fallbackWindow now points
      if window_points = [] then (none, insufficientDataFlags)
      else
        let summary := summaryFrom points window_points insufficient_window
        (some summary,
         { degraded := summary.insufficient,
           reason := if summary.insufficient then some "keepa_insufficient_data" else none })

/-- `_extract_rank`: latest positive rank, or window median as fallback;
`insufficient` when the 30-day window holds no positive rank. -/
def _extract_rank (now : ℤ) (csv_map : List (String × List ℤ)) : Option ℤ × Bool :=
  match _select_series csv_map [RANK_SERIES_KEYS] with
  | none => (none, true)
  | some series =>
    let points := _decode_compact_series series
    if points = [] then (none, true)
    else
      let window_ranks := (windowPoints now points).map (fun p => p.2)
      let latest_rank0 := _latest_positive points
      let latest_rank :=
        match latest_rank0 with
        | none => if window_ranks ≠ [] then some (_median_int window_ranks) else none
        | some r => some r
      (latest_rank, window_ranks = [])

/-- Token expansion loop of `_extract_image_urls`. -/
def imageUrlsFrom : List String → List String
  | [] => []
  | token :: rest =>
    let t := token.trim
    if t.isEmpty then imageUrlsFrom rest
    else if t.startsWith "http" then t :: imageUrlsFrom rest
    else ("https://images-na.ssl-images-amazon.com/images/I/" ++ t ++ ".jpg") :: imageUrlsFrom rest

/-- `_extract_image_urls` on the product's `imagesCSV` string. -/
def _extract_image_urls (imagesCSV : String) : List String :=
  imageUrlsFrom (imagesCSV.splitOn ",")

/-- `_merge_flags` from src/services/keepa_api.py (booleans OR-ed, the later
reason wins when truthy). -/
def mergeServiceFlags (primary secondary : ServiceFlags) : ServiceFlags :=
  { degraded := primary.degraded || secondary.degraded
    cached := primary.cached || secondary.cached
    circuit_open := primary.circuit_open || secondary.circuit_open
    reason := if pyTruthy secondary.reason then secondary.reason else primary.reason }

/-! ## Keepa payload shape (parsed form of the JSON response) -/

/-- A product record of the Keepa response. -/
structure KeepaProduct where
  csv : CsvField
  title : Option String := none
  imagesCSV : Option String := none
deriving DecidableEq, Repr

/-- The Keepa response body. -/
structure KeepaPayload where
  error : Option String := none
  products : List KeepaProduct := []
  currency : Option String := none
deriving DecidableEq, Repr

/-! ## Retrying transport, Keepa client (src/services/keepa_api.py)

The client's mutable collaborators (budget, breaker, TTL cache) and the
observable external effects (HTTP sends, semaphore acquisitions) are threaded
as an explicit state.  One HTTP attempt's outcome comes from an oracle indexed
by the number of sends so far; the monotonic clock is a parameter (`nowMono`),
and the wall clock for the 30-day window is `nowMin` (minutes since the Keepa
epoch). -/

/-- Outcome of one `session.get` in `KeepaAPIClient._send_once`; `json = none`
models a body that fails to parse as JSON. -/
inductive KeepaHttp where
  | timeout
  | connError
  | otherError
  | response (status : ℕ) (json : Option KeepaPayload)
deriving DecidableEq, Repr

/-- `RETRYABLE_STATUS_CODES = {429, 500, 502, 503, 504}`. -/
def RETRYABLE_STATUS_CODES : List ℕ := [429, 500, 502, 503, 504]

/-- Mutable state of a `KeepaAPIClient` plus effect counters. -/
structure KeepaState where
  budget : RequestBudget
  breaker : CircuitBreaker
  cache : List (String × KeepaPriceSnapshot × ℚ)
  httpAttempts : ℕ := 0
  semAcquires : ℕ := 0

/-- Result of one `_send_once` call, classifying the exceptions it raises. -/
inductive KeepaSendResult where
  | budget_exceeded
  | retryable
  | apiError
  | ok (payload : KeepaPayload)
deriving DecidableEq, Repr

/-- `KeepaAPIClient._send_once`: consume budget, acquire the key semaphore,
perform one HTTP send, classify the outcome. -/
def keepaSendOnce (oracle : ℕ → KeepaHttp) (key : String) (limit : ℕ)
    (st : KeepaState) : KeepaSendResult × KeepaState :=
  match st.budget.consume key limit with
  | .error _ => (.budget_exceeded, st)
  | .ok (_, b1) =>
    let st1 := { st with budget := b1, semAcquires := st.semAcquires + 1 }
    let outcome := oracle st1.httpAttempts
    let st2 := { st1 with httpAttempts := st1.httpAttempts + 1 }
    match outcome with
    | .timeout => (.retryable, st2)
    | .connError => (.retryable, st2)
    | .otherError => (.apiError, st2)
    | .response status json =>
      if status ∈ RETRYABLE_STATUS_CODES then (.retryable, st2)
      else if status ≥ 400 then (.apiError, st2)
      else
        match json with
        | none => (.apiError, st2)
        | some payload => (.ok payload, st2)

/-- The tenacity `Retrying(stop=stop_after_attempt(n), retry=RetryableKeepaError,
reraise=True)` loop around `_send_once`: only retry-eligible failures are
re-attempted, and with no attempt left the retryable error is re-raised. -/
def keepaRetryLoop (oracle : ℕ → KeepaHttp) (key : String) (limit : ℕ) :
    ℕ → KeepaState → KeepaSendResult × KeepaState
  | 0, st => (.retryable, st)
  | n + 1, st =>
    let (r, st1) := keepaSendOnce oracle key limit st
    match r with
    | .retryable =>
      match n with
      | 0 => (.retryable, st1)
      | m + 1 => keepaRetryLoop oracle key limit (m + 1) st1
    | other => (other, st1)

/-- `KeepaAPIClient._request`: circuit-breaker gate, retry loop, terminal
classification.  `Except.error ()` models raising `KeepaAPIError` to the
caller; a returned value is the `ServiceResult` of payload and flags. -/
def keepaRequest (oracle : ℕ → KeepaHttp) (max_attempts : ℕ) (key : String)
    (limit : ℕ) (nowMono : ℚ) (st : KeepaState) :
    Except Unit (Option KeepaPayload × ServiceFlags) × KeepaState :=
  match st.breaker.allow nowMono with
  | none =>
    (.ok (none, { degraded := true, circuit_open := true, reason := some "circuit_open" }), st)
  | some breaker1 =>
    let st1 := { st with breaker := breaker1 }
    let (r, st2) := keepaRetryLoop oracle key limit max_attempts st1
    match r with
    | .budget_exceeded =>
      (.ok (none, { degraded := true, reason := some "budget_exceeded" }), st2)
    | .retryable =>
      let st3 := { st2 with breaker := st2.breaker.record_failure nowMono }
      (.ok (none, { degraded := true, reason := some "retry_exhausted" }), st3)
    | .apiError =>
      let st3 := { st2 with breaker := st2.breaker.record_failure nowMono }
      (.error (), st3)
    | .ok payload =>
      let st3 := { st2 with breaker := st2.breaker.record_success }
      (.ok (some payload, {}), st3)

/-- `TTLCache.get`: an entry is returned only before its expiry instant. -/
def ttlGet (cache : List (String × KeepaPriceSnapshot × ℚ)) (key : String)
    (now : ℚ) : Option KeepaPriceSnapshot :=
  match cache with
  | [] => none
  | (k, snap, expiry) :: rest =>
    if k = key then (if now < expiry then some snap else none)
    else ttlGet rest key now

/-- `TTLCache.__setitem__`: store with expiry `now + ttl` (the LRU capacity
bound of 512 entries is not modelled; no claim depends on eviction). -/
def ttlPut (cache : List (String × KeepaPriceSnapshot × ℚ)) (key : String)
    (snap : KeepaPriceSnapshot) (expiry : ℚ) : List (String × KeepaPriceSnapshot × ℚ) :=
  (key, snap, expiry) :: cache.filter (fun e => e.1 ≠ key)

/-- The default zeroed summary substituted when `_build_price_summary`
returns `None`. -/
def defaultPriceSummary : PriceSummary :=
  { current := 0, median := 0, p10 := 0, p90 := 0, insufficient := true }

/-- `KeepaAPIClient.get_price_snapshot`: TTL-cache lookup, `_request`, payload
validation, series decoding, snapshot assembly, cache fill.  `Except.error ()`
models raising `KeepaAPIError`. -/
def getPriceSnapshot (oracle : ℕ → KeepaHttp) (max_attempts : ℕ)
    (cacheKey budgetKey : String) (limit : ℕ) (ttl : ℚ) (nowMono : ℚ)
    (nowMin : ℤ) (st : KeepaState) :
    Except Unit (Option KeepaPriceSnapshot × ServiceFlags) × KeepaState :=
  match ttlGet st.cache cacheKey nowMono with
  | some cached => (.ok (some cached, { cached := true }), st)
  | none =>
    let (outcome, st1) := keepaRequest oracle max_attempts budgetKey limit nowMono st
    match outcome with
    | .error e => (.error e, st1)
    | .ok (none, flags) => (.ok (none, flags), st1)
    | .ok (some payload, flags) =>
      if pyTruthy payload.error then (.error (), st1)
      else
        match payload.products with
        | [] => (.error (), st1)
        | product :: _ =>
          let csv_map := _normalize_csv_map product.csv
          let (price_summary0, price_flags) := _build_price_summary nowMin csv_map
          let (rank_value, rank_insufficient) := _extract_rank nowMin csv_map
          let price_summary := price_summary0.getD defaultPriceSummary
          let snapshot : KeepaPriceSnapshot :=
            { current_price := price_summary.current
              average_price_30d := price_summary.median
              lowest_price_30d := price_summary.p10
              highest_price_30d := price_summary.p90
              sales_rank := rank_value
              currency := payload.currency.getD "JPY"
              title := product.title
              image_urls := _extract_image_urls (product.imagesCSV.getD "") }
          let flags1 := mergeServiceFlags flags price_flags
          let flags2 :=
            if rank_insufficient then
              mergeServiceFlags flags1
                { degraded := true, reason := some "keepa_rank_insufficient" }
            else flags1
          let st2 := { st1 with cache := ttlPut st1.cache cacheKey snapshot (nowMono + ttl) }
          (.ok (some snapshot, flags2), st2)

/-! ## Retrying transport, SP-API client (src/services/amazon_sp_api.py)

`AmazonSPAPIClient._request` has the same circuit/budget/retry skeleton; the
response body is opaque at this level (JSON parsing happens in the two public
operations) and SigV4 signing is pure header preparation with no observable
effect on budget, breaker or cache, so one send is abstracted by its
classified outcome.  The access-token provider call that precedes the retry
loop is counted in `tokenCalls`. -/

/-- Outcome of one `session.request` in `AmazonSPAPIClient._send_once`. -/
inductive SpapiHttp where
  | timeout
  | connError
  | otherError
  | response (status : ℕ)
deriving DecidableEq, Repr

/-- Mutable state of an `AmazonSPAPIClient` plus effect counters. -/
structure SpapiState where
  budget : RequestBudget
  breaker : CircuitBreaker
  httpAttempts : ℕ := 0
  semAcquires : ℕ := 0
  tokenCalls : ℕ := 0

/-- Result of one SP-API `_send_once` call. -/
inductive SpapiSendResult where
  | budget_exceeded
  | retryable
  | apiError
  | ok (status : ℕ)
deriving DecidableEq, Repr

/-- `AmazonSPAPIClient._send_once`. -/
def spapiSendOnce (oracle : ℕ → SpapiHttp) (key : String) (limit : ℕ)
    (st : SpapiState) : SpapiSendResult × SpapiState :=
  match st.budget.consume key limit with
  | .error _ => (.budget_exceeded, st)
  | .ok (_, b1) =>
    let st1 := { st with budget := b1, semAcquires := st.semAcquires + 1 }
    let outcome := oracle st1.httpAttempts
    let st2 := { st1 with httpAttempts := st1.httpAttempts + 1 }
    match outcome with
    | .timeout => (.retryable, st2)
    | .connError => (.retryable, st2)
    | .otherError => (.apiError, st2)
    | .response status =>
      if status ∈ RETRYABLE_STATUS_CODES then (.retryable, st2)
      else if status ≥ 400 then (.apiError, st2)
      else (.ok status, st2)

/-- The tenacity retry loop around the SP-API `_send_once`. -/
def spapiRetryLoop (oracle : ℕ → SpapiHttp) (key : String) (limit : ℕ) :
    ℕ → SpapiState → SpapiSendResult × SpapiState
  | 0, st => (.retryable, st)
  | n + 1, st =>
    let (r, st1) := spapiSendOnce oracle key limit st
    match r with
    | .retryable =>
      match n with
      | 0 => (.retryable, st1)
      | m + 1 => spapiRetryLoop oracle key limit (m + 1) st1
    | other => (other, st1)

/-- `AmazonSPAPIClient._request`.  `Except.error ()` models raising
`AmazonSPAPIError`; a `.ok (some status, flags)` is a successful response. -/
def spapiRequest (oracle : ℕ → SpapiHttp) (max_attempts : ℕ) (key : String)
    (limit : ℕ) (nowMono : ℚ) (st : SpapiState) :
    Except Unit (Option ℕ × ServiceFlags) × SpapiState :=
  match st.breaker.allow nowMono with
  | none =>
    (.ok (none, { degraded := true, circuit_open := true, reason := some "circuit_open" }), st)
  | some breaker1 =>
    let st1 := { st with breaker := breaker1, tokenCalls := st.tokenCalls + 1 }
    let (r, st2) := spapiRetryLoop oracle key limit max_attempts st1
    match r with
    | .budget_exceeded =>
      (.ok (none, { degraded := true, reason := some "budget_exceeded" }), st2)
    | .retryable =>
      let st3 := { st2 with breaker := st2.breaker.record_failure nowMono }
      (.ok (none, { degraded := true, reason := some "retry_exhausted" }), st3)
    | .apiError =>
      let st3 := { st2 with breaker := st2.breaker.record_failure nowMono }
      (.error (), st3)
    | .ok status =>
      let st3 := { st2 with breaker := st2.breaker.record_success }
      (.ok (some status, {}), st3)

/-! ## Decision evaluation (src/agents/scrape/pipeline.py) -/

/-- `ThresholdSettings` from src/common/config.py. -/
structure ThresholdSettings where
  min_profit : ℚ := 0
  min_roi : ℚ := 0
  max_rank : Option ℕ := none
deriving DecidableEq, Repr

/-- The pipeline's `flags_state` dict aggregated over the three service calls. -/
structure FlagsState where
  degraded : Bool := false
  cached : Bool := false
  circuit_open : Bool := false
  reasons : List String := []
deriving DecidableEq, Repr

/-- `ScrapeAgent._make_decision` from src/agents/scrape/pipeline.py. -/
def _make_decision (thresholds : ThresholdSettings) (profit_analysis : ProfitAnalysis)
    (keepa_snapshot : KeepaPriceSnapshot) (offers : List CompetitivePrice)
    (flags_state : FlagsState) : PurchaseDecision :=
  let is_profitable := decide (profit_analysis.profit > 0)
  let meets_profit := decide (profit_analysis.profit ≥ thresholds.min_profit)
  let meets_roi := decide (profit_analysis.roi ≥ thresholds.min_roi)
  let meets_rank : Bool :=
    match thresholds.max_rank with
    | none => true
    | some mr =>
      match keepa_snapshot.sales_rank with
      | none => true
      | some r => decide (r ≤ (mr : ℤ))
  let has_offers := !offers.isEmpty
  let reasons :=
    (if meets_profit then [] else ["profit_below_threshold"]) ++
    (if meets_roi then [] else ["roi_below_threshold"]) ++
    (if meets_rank then [] else ["rank_above_threshold"]) ++
    (if has_offers then [] else ["no_competitive_offers"]) ++
    (if flags_state.degraded then ["degraded_inputs"] else [])
  let meets_thresholds :=
    is_profitable && meets_profit && meets_roi && meets_rank && has_offers &&
      !flags_state.degraded
  { is_profitable := is_profitable
    meets_thresholds := meets_thresholds
    reasons := reasons }

/-- `ScrapeAgent._build_result` emits `decision.buy = decision.meets_thresholds`. -/
def resultBuy (decision : PurchaseDecision) : Bool := decision.meets_thresholds

/-! ## Sample fixture inputs (mirroring tests/agents/scrape fixtures) -/

/-- Thresholds of the pipeline tests: `min_profit=500, min_roi=0.15, max_rank=50000`. -/
def buyThresholds : ThresholdSettings := { min_profit := 500, min_roi := 15/100, max_rank := some 50000 }

/-- A profit analysis that clears the sample thresholds. -/
def buyProfitAnalysis : ProfitAnalysis :=
  { selling_price := 4800, purchase_cost := 2400, fees := {}, total_cost := 2400,
    profit := 1000, roi := 5/12, margin := 5/24 }

/-- A snapshot whose `sales_rank` is absent. -/
def noRankSnapshot : KeepaPriceSnapshot :=
  { current_price := 4500, average_price_30d := 4200, lowest_price_30d := 3800,
    highest_price_30d := 4700, sales_rank := none }

/-- A snapshot with a concrete low `sales_rank`. -/
def rankedSnapshot : KeepaPriceSnapshot :=
  { current_price := 300, average_price_30d := 300, lowest_price_30d := 300,
    highest_price_30d := 300, sales_rank := some 42 }

/-- One competitive offer. -/
def sampleOffers : List CompetitivePrice :=
  [{ condition := "New", seller_id := "SELLER1", landed_price := 4400, shipping := 0,
     last_updated := 0 }]

/-- Thresholds with nothing configured. -/
def freeThresholds : ThresholdSettings := { min_profit := 0, min_roi := 0, max_rank := none }

/-- The all-halves fee vector used to exhibit quantization drift. -/
def halfCentFees : FeeBreakdownFull :=
  { referral_fee := 1/200, closing_fee := 1/200, fba_fee := 1/200, inbound_shipping := 1/200,
    packaging_materials := 1/200, storage_fee := 1/200, taxes := 1/200, fx_spread := 1/200,
    returns_cost := 1/200, other_costs := 1/200 }

/-- A breaker opened at monotonic time 100 with its cooldown not yet elapsed at 110. -/
def openBreaker : CircuitBreaker :=
  { failure_threshold := 3, cooldown_seconds := 30, failures := 3, opened_at := some 100 }

/-- Keepa client state whose breaker is open. -/
def openKeepaState : KeepaState :=
  { budget := RequestBudget.init, breaker := openBreaker, cache := [] }

/-- SP-API client state whose breaker is open. -/
def openSpapiState : SpapiState :=
  { budget := RequestBudget.init, breaker := openBreaker }

/-- A cached snapshot fixture. -/
def cachedSnap : KeepaPriceSnapshot :=
  { current_price := 1550, average_price_30d := 1525, lowest_price_30d := 1430,
    highest_price_30d := 1585, sales_rank := some 3000 }

/-- Keepa client state holding `cachedSnap` unexpired under key "TESTASIN:5". -/
def warmKeepaState : KeepaState :=
  { budget := RequestBudget.init, breaker := {}, cache := [("TESTASIN:5", cachedSnap, 100)] }

/-! ## Theorems -/

/-- Claim C9 (counterexample): constructing `ProductQuery` with BOTH `asin`
and `barcode` non-empty succeeds, so construction does not require exactly one
identifier; it only requires at least one. -/
theorem C9_counterexample :
    mkProductQuerySucceeds (some "B0TESTASIN") (some "4901234567890") = true ∧
    pyTruthy (some "B0TESTASIN") = true ∧ pyTruthy (some "4901234567890") = true := by
  decide

/-- Claim C9 (amended): constructing a `ProductQuery` succeeds if and only if
at least one of `asin` and `barcode` is truthy (non-`None` and non-empty);
only the both-empty case fails. -/
theorem C9_succeeds_iff (asin barcode : Option String) :
    mkProductQuerySucceeds asin barcode = true ↔
      (pyTruthy asin || pyTruthy barcode) = true := by
  unfold mkProductQuerySucceeds mkProductQuery
  cases h : pyTruthy asin || pyTruthy barcode <;> simp [h]

/-- Claim C3 (code-bug evidence): on the first fee vector of
tests/services/test_profit_calculator.py, the ten-component total demanded by
the claim (and produced by every caller) is 406.174, while the five-component
`FeeBreakdown` actually defined in src/common/models.py can only sum its five
fields (375.398 when the five shared components are filled in);
the ten-keyword construction used by the calculator, the pipeline and the
tests does not exist on the class in src/common/models.py. -/
theorem C3_divergence :
    (FeeBreakdownFull.mk (123456/1000) (10555/1000) (200499/1000) (35333/1000)
        (12111/1000) (8666/1000) (5555/1000) (4444/1000) (3333/1000) (2222/1000)).total
      = 406174/1000 ∧
    (FeeBreakdown.mk (123456/1000) (10555/1000) (200499/1000) (35333/1000)
        (5555/1000)).total = 375398/1000 := by
  constructor <;> norm_num [FeeBreakdownFull.total, FeeBreakdown.total]

/-- Claim C6: `record_failure` increments the failure count and opens the
breaker (at the current monotonic instant) once the count reaches
`failure_threshold`; while open and within the cooldown, `allow` fails with
`CircuitOpen`; once the cooldown has elapsed, `allow` clears the failures,
closes the breaker and permits the call. -/
theorem C6_breaker (cb : CircuitBreaker) (now t0 : Rat) :
    ((cb.record_failure now).failures = cb.failures + 1) ∧
    (cb.failures + 1 >= cb.failure_threshold -> (cb.record_failure now).opened_at = some now) ∧
    (cb.opened_at = some t0 -> now - t0 < cb.cooldown_seconds -> cb.allow now = none) ∧
    (cb.opened_at = some t0 -> now - t0 >= cb.cooldown_seconds ->
      cb.allow now = some { cb with failures := 0, opened_at := none }) := by
  refine ⟨?_, ?_, ?_, ?_⟩
  · simp only [CircuitBreaker.record_failure]
    split <;> rfl
  · intro h
    unfold CircuitBreaker.record_failure
    rw [if_pos h]
  · intro h1 h2
    unfold CircuitBreaker.allow
    rw [h1]
    simp only [ge_iff_le]
    rw [if_neg (not_le.mpr h2)]
  · intro h1 h2
    unfold CircuitBreaker.allow
    rw [h1]
    simp only [ge_iff_le]
    rw [if_pos h2]

/-- Claim C6 (witness): a breaker with 2 failures, threshold 3, opened at 100:
the third failure opens it at the current instant; at time 105 (within the
30-second cooldown) `allow` refuses; at time 131 it resets and permits. -/
theorem C6_witness :
    (((⟨3, 30, 2, some 100⟩ : CircuitBreaker).record_failure 105).failures = 2 + 1) ∧
    (((⟨3, 30, 2, some 100⟩ : CircuitBreaker).record_failure 105).opened_at = some 105) ∧
    ((⟨3, 30, 2, some 100⟩ : CircuitBreaker).allow 105 = none) ∧
    ((⟨3, 30, 2, some 100⟩ : CircuitBreaker).allow 131 =
      some { (⟨3, 30, 2, some 100⟩ : CircuitBreaker) with failures := 0, opened_at := none }) :=
  ⟨(C6_breaker ⟨3, 30, 2, some 100⟩ 105 100).1,
   (C6_breaker ⟨3, 30, 2, some 100⟩ 105 100).2.1 (by norm_num),
   (C6_breaker ⟨3, 30, 2, some 100⟩ 105 100).2.2.1 rfl (by norm_num),
   (C6_breaker ⟨3, 30, 2, some 100⟩ 131 100).2.2.2 rfl (by norm_num)⟩

/-- Helper for C7: starting from a fresh count, after `n` consume calls the
stored count and the number of successes both equal `min n limit`. -/
theorem consumeRuns_inv (key : String) (limit : Nat) (b : RequestBudget)
    (h : b.counts key = 0) :
    forall n, (consumeRuns b key limit n).1.counts key = min n limit ∧
      (consumeRuns b key limit n).2 = min n limit := by
  intro n
  induction n with
  | zero => simpa [consumeRuns] using h
  | succ n ih =>
    obtain ⟨h1, h2⟩ := ih
    simp only [consumeRuns]
    unfold RequestBudget.consume
    by_cases hc : min n limit >= limit
    · have hmin : min (n + 1) limit = limit := by omega
      have hmin2 : min n limit = limit := by omega
      simp only [h1, if_pos hc]
      refine ⟨by omega, ?_⟩
      rw [h2]
      omega
    · have hlt : n < limit := by omega
      have hmin : min (n + 1) limit = min n limit + 1 := by omega
      simp only [h1, if_neg hc]
      refine ⟨?_, by omega⟩
      simp [Function.update, h1, hmin]

/-- Claim C7: from a fresh budget, a sequence of `n` calls to
`budget.consume(key, limit)` succeeds exactly `min n limit` times, and the
next call after the sequence succeeds precisely while fewer than `limit`
calls have been made - so exactly `limit` successes are admitted and every
later call fails with `BudgetExceeded`. -/
theorem C7_budget (key : String) (limit n : Nat) (b : RequestBudget)
    (h : b.counts key = 0) :
    (consumeRuns b key limit n).2 = min n limit ∧
    ((consumeRuns b key limit n).1.consumeOk key limit = true ↔ n < limit) := by
  obtain ⟨h1, h2⟩ := consumeRuns_inv key limit b h n
  refine ⟨h2, ?_⟩
  unfold RequestBudget.consumeOk RequestBudget.consume
  rw [h1]
  by_cases hc : min n limit >= limit
  · rw [if_pos hc]
    simp
    omega
  · rw [if_neg hc]
    simp
    omega

/-- Claim C7 (witness): with limit 3, five consume calls on a fresh budget
succeed exactly three times and the sixth call fails. -/
theorem C7_witness :
    (consumeRuns RequestBudget.init "spapi:TEST" 3 5).2 = min 5 3 ∧
    ((consumeRuns RequestBudget.init "spapi:TEST" 3 5).1.consumeOk "spapi:TEST" 3 = true ↔ 5 < 3) :=
  C7_budget "spapi:TEST" 3 5 RequestBudget.init rfl

/-- Claim C2 (amended): the returned `profit` is exactly the half-up
quantization of `selling_price - purchase_cost - fees.total` computed on the
RAW (pre-quantization) inputs; the same identity stated over the quantized
result values (as the original claim does) only holds up to the accumulated
rounding error of the thirteen independently rounded quantities, not to
within one quantum. -/
theorem C2_profit_eq (selling_price purchase_cost : Rat) (fees : FeeBreakdownFull)
    (rounding : Rat) :
    (calculate_profit selling_price purchase_cost fees rounding).profit =
      quantize_money (selling_price - purchase_cost - fees.total) rounding := by
  simp only [calculate_profit]
  congr 1
  ring

/-- Claim C2 (counterexample): with selling price 1, cost 0, every fee
component 0.005 and quantum 0.01, the result has profit 0.95 but
`selling_price - purchase_cost - fees.total` over the quantized result values
is 0.90, a discrepancy of five quanta. -/
theorem C2_counterexample :
    ¬ (|(calculate_profit 1 0 halfCentFees (1/100)).profit -
        ((calculate_profit 1 0 halfCentFees (1/100)).selling_price -
         (calculate_profit 1 0 halfCentFees (1/100)).purchase_cost -
         (calculate_profit 1 0 halfCentFees (1/100)).fees.total)| ≤ (1/100 : Rat)) := by
  have hprofit : (calculate_profit 1 0 halfCentFees (1/100)).profit = 19/20 := by
    simp only [calculate_profit, halfCentFees, FeeBreakdownFull.total, quantize_money,
      roundHalfUp, safe_divide]
    norm_num
  have hsp : (calculate_profit 1 0 halfCentFees (1/100)).selling_price = 1 := by
    simp only [calculate_profit, halfCentFees, quantize_money, roundHalfUp]
    norm_num
  have hpc : (calculate_profit 1 0 halfCentFees (1/100)).purchase_cost = 0 := by
    simp only [calculate_profit, halfCentFees, quantize_money, roundHalfUp]
    norm_num
  have htot : (calculate_profit 1 0 halfCentFees (1/100)).fees.total = 1/10 := by
    simp only [calculate_profit, halfCentFees, FeeBreakdownFull.total, quantize_money,
      roundHalfUp]
    norm_num
  rw [hprofit, hsp, hpc, htot]
  intro hle
  rw [show ((19:Rat)/20 - (1 - 0 - 1/10)) = 1/20 by norm_num,
    abs_of_pos (show (0:Rat) < 1/20 by norm_num)] at hle
  norm_num at hle

/-- Claim C1 (counterexample): a decision with `buy = true` although
`max_rank` is configured (50000) and the snapshot's sales rank is absent, so
the conjunct "max_rank is unconfigured or the snapshot's sales rank is at
most max_rank" fails as stated. -/
theorem C1_counterexample :
    resultBuy (_make_decision buyThresholds buyProfitAnalysis noRankSnapshot
      sampleOffers {}) = true ∧
    ¬ (buyThresholds.max_rank = none ∨
        ∃ r mr, noRankSnapshot.sales_rank = some r ∧ buyThresholds.max_rank = some mr ∧
          r ≤ (mr : Int)) := by
  constructor
  · simp only [resultBuy, _make_decision, buyThresholds, buyProfitAnalysis, noRankSnapshot,
      sampleOffers]
    norm_num
  · simp [buyThresholds, noRankSnapshot]

/-- Claim C1 (amended): whenever the emitted decision has `buy = true`, the
computed profit is at least `min_profit`, the roi is at least `min_roi`, the
rank gate holds in the weakened form "max_rank unconfigured OR sales rank
absent OR sales rank at most max_rank", the offer list is non-empty and the
aggregated degraded flag is false. -/
theorem C1_buy_implies (T : ThresholdSettings) (P : ProfitAnalysis) (S : KeepaPriceSnapshot)
    (O : List CompetitivePrice) (F : FlagsState)
    (h : resultBuy (_make_decision T P S O F) = true) :
    T.min_profit ≤ P.profit ∧ T.min_roi ≤ P.roi ∧
    (T.max_rank = none ∨ S.sales_rank = none ∨
      ∃ r mr, S.sales_rank = some r ∧ T.max_rank = some mr ∧ r ≤ (mr : Int)) ∧
    O ≠ [] ∧ F.degraded = false := by
  simp only [resultBuy, _make_decision, Bool.and_eq_true, decide_eq_true_eq,
    Bool.not_eq_true'] at h
  obtain ⟨⟨⟨⟨⟨hp, hmp⟩, hroi⟩, hrank⟩, hoff⟩, hdeg⟩ := h
  refine ⟨hmp, hroi, ?_, ?_, hdeg⟩
  · cases hTmr : T.max_rank with
    | none => exact Or.inl rfl
    | some mr =>
      cases hSsr : S.sales_rank with
      | none => exact Or.inr (Or.inl rfl)
      | some r =>
        rw [hTmr, hSsr] at hrank
        simp only [decide_eq_true_eq] at hrank
        exact Or.inr (Or.inr ⟨r, mr, rfl, rfl, hrank⟩)
  · intro hO
    subst hO
    simp at hoff

/-- Claim C1 (witness): the amended invariant instantiated at a concrete buy
decision (unconfigured max_rank, rank 42, one offer, nothing degraded). -/
theorem C1_witness :
    freeThresholds.min_profit ≤ buyProfitAnalysis.profit ∧
    freeThresholds.min_roi ≤ buyProfitAnalysis.roi ∧
    (freeThresholds.max_rank = none ∨ rankedSnapshot.sales_rank = none ∨
      ∃ r mr, rankedSnapshot.sales_rank = some r ∧ freeThresholds.max_rank = some mr ∧
        r ≤ (mr : Int)) ∧
    sampleOffers ≠ [] ∧ ({} : FlagsState).degraded = false :=
  C1_buy_implies freeThresholds buyProfitAnalysis rankedSnapshot sampleOffers {}
    (by simp only [resultBuy, _make_decision, freeThresholds, buyProfitAnalysis,
          rankedSnapshot, sampleOffers]
        norm_num)

/-- Claim C10: when the snapshot's `sales_rank` is `None` the rank check is
treated as satisfied even with `max_rank` configured - no
`rank_above_threshold` reason is ever emitted - and a buy decision remains
possible: the fixture decision with `max_rank = 50000` and an absent rank
still yields `buy = true`. -/
theorem C10_rank_none :
    (∀ (T : ThresholdSettings) (P : ProfitAnalysis) (S : KeepaPriceSnapshot)
       (O : List CompetitivePrice) (F : FlagsState), S.sales_rank = none →
         "rank_above_threshold" ∉ (_make_decision T P S O F).reasons) ∧
    (resultBuy (_make_decision buyThresholds buyProfitAnalysis noRankSnapshot
      sampleOffers {}) = true ∧ buyThresholds.max_rank = some 50000 ∧
      noRankSnapshot.sales_rank = none) := by
  refine ⟨?_, ?_, rfl, rfl⟩
  · intro T P S O F hS
    simp only [_make_decision, hS]
    cases T.max_rank <;>
      (simp only []
       split_ifs <;> decide)
  · simp only [resultBuy, _make_decision, buyThresholds, buyProfitAnalysis, noRankSnapshot,
      sampleOffers]
    norm_num

/-- Claim C10 (witness): no `rank_above_threshold` reason on a concrete
no-rank decision with `max_rank` configured. -/
theorem C10_witness :
    "rank_above_threshold" ∉ (_make_decision buyThresholds buyProfitAnalysis noRankSnapshot
      [] {}).reasons :=
  C10_rank_none.1 _ _ _ _ _ rfl

/-- Claim C5: when the circuit breaker is open and the cooldown has not
elapsed (so `allow` raises `CircuitOpen`), both clients' `_request` return
`ServiceResult(None, degraded=true, circuit_open=true, reason="circuit_open")`
with the entire client state unchanged: no HTTP attempt, no budget
consumption, no semaphore acquisition (and for SP-API no token fetch). -/
theorem C5_circuit_open (koracle : Nat → KeepaHttp) (soracle : Nat → SpapiHttp)
    (kmax smax : Nat) (kkey skey : String) (klimit slimit : Nat) (now t0 t1 : Rat)
    (kst : KeepaState) (sst : SpapiState)
    (hk : kst.breaker.opened_at = some t0) (hk2 : now - t0 < kst.breaker.cooldown_seconds)
    (hs : sst.breaker.opened_at = some t1) (hs2 : now - t1 < sst.breaker.cooldown_seconds) :
    keepaRequest koracle kmax kkey klimit now kst =
      (.ok (none, { degraded := true, circuit_open := true, reason := some "circuit_open" }), kst) ∧
    spapiRequest soracle smax skey slimit now sst =
      (.ok (none, { degraded := true, circuit_open := true, reason := some "circuit_open" }), sst) := by
  constructor
  · unfold keepaRequest CircuitBreaker.allow
    rw [hk]
    simp only [ge_iff_le]
    rw [if_neg (not_le.mpr hk2)]
  · unfold spapiRequest CircuitBreaker.allow
    rw [hs]
    simp only [ge_iff_le]
    rw [if_neg (not_le.mpr hs2)]

/-- Claim C5 (witness): concrete open-breaker states at time 110 (opened at
100, cooldown 30). -/
theorem C5_witness :
    keepaRequest (fun _ => KeepaHttp.timeout) 5 "keepa:5:abcdef" 150 110 openKeepaState =
      (.ok (none, { degraded := true, circuit_open := true, reason := some "circuit_open" }),
        openKeepaState) ∧
    spapiRequest (fun _ => SpapiHttp.timeout) 5 "spapi:TEST" 120 110 openSpapiState =
      (.ok (none, { degraded := true, circuit_open := true, reason := some "circuit_open" }),
        openSpapiState) :=
  C5_circuit_open (fun _ => KeepaHttp.timeout) (fun _ => SpapiHttp.timeout)
    5 5 "keepa:5:abcdef" "spapi:TEST" 150 120 110 100 100 openKeepaState openSpapiState
    rfl (by norm_num [openKeepaState, openBreaker])
    rfl (by norm_num [openSpapiState, openBreaker])

/-- Claim C8: on a TTL-cache hit, `get_price_snapshot` returns the cached
snapshot with flags exactly `cached=true` (not degraded, breaker not
reported open) and the client state untouched: zero HTTP requests, zero
budget consumption, semaphore and circuit breaker unchanged. -/
theorem C8_cache_hit (oracle : Nat → KeepaHttp) (max_attempts : Nat)
    (cacheKey budgetKey : String) (limit : Nat) (ttl nowMono : Rat) (nowMin : Int)
    (st : KeepaState) (snap : KeepaPriceSnapshot)
    (h : ttlGet st.cache cacheKey nowMono = some snap) :
    getPriceSnapshot oracle max_attempts cacheKey budgetKey limit ttl nowMono nowMin st =
      (.ok (some snap, { cached := true }), st) := by
  unfold getPriceSnapshot
  rw [h]

/-- Claim C8 (witness): a warm cache entry (expiry 100, queried at 50) is
returned unchanged. -/
theorem C8_witness :
    getPriceSnapshot (fun _ => KeepaHttp.timeout) 5 "TESTASIN:5" "keepa:5:abcdef" 150 1800
      50 7900000 warmKeepaState =
      (.ok (some cachedSnap, { cached := true }), warmKeepaState) :=
  C8_cache_hit (fun _ => KeepaHttp.timeout) 5 "TESTASIN:5" "keepa:5:abcdef" 150 1800 50
    7900000 warmKeepaState cachedSnap (by decide)

/-- Helper shared by the C4 results: case analysis of `_build_price_summary`
when the 30-day window holds fewer than `MIN_WINDOW_POINTS` points. -/
theorem buildSummary_insufficient (now : Int) (m : List (String × List Int)) (series : List Int)
    (hsel : _select_series m PRICE_SERIES_PRIORITY = some series)
    (hwin : (windowPoints now (_decode_compact_series series)).length < MIN_WINDOW_POINTS) :
    ((_build_price_summary now m).2 = insufficientDataFlags) ∧
    (windowPoints now (_decode_compact_series series) = [] →
      fallbackWindow now (_decode_compact_series series) =
        positivePoints (_decode_compact_series series)) ∧
    (fallbackWindow now (_decode_compact_series series) ≠ [] →
      (_build_price_summary now m).1 =
        some (summaryFrom (_decode_compact_series series)
          (fallbackWindow now (_decode_compact_series series)) true)) := by
  have hdecide : decide ((windowPoints now (_decode_compact_series series)).length
      < MIN_WINDOW_POINTS) = true := decide_eq_true hwin
  refine ⟨?_, ?_, ?_⟩
  · simp only [_build_price_summary, hsel, hdecide]
    by_cases h1 : _decode_compact_series series = []
    · rw [if_pos h1]
    · rw [if_neg h1]
      by_cases h2 : fallbackWindow now (_decode_compact_series series) = []
      · rw [if_pos h2]
      · rw [if_neg h2]
        simp [summaryFrom, insufficientDataFlags]
  · intro h
    unfold fallbackWindow
    rw [if_pos h]
  · intro h
    simp only [_build_price_summary, hsel, hdecide]
    by_cases h1 : _decode_compact_series series = []
    · exfalso
      apply h
      rw [h1]
      simp [fallbackWindow, windowPoints, positivePoints]
    · rw [if_neg h1, if_neg h]

/-- Claim C4 (amended): whenever the selected series decodes to a non-trivial
point list whose 30-day window (timestamps at least now minus 30 days,
positive values only) has fewer than 2 points, the returned flags are exactly
`degraded=true, reason="keepa_insufficient_data"`; but the fallback to all
positive points of the whole series happens only when the window is EMPTY -
with exactly one in-window point the statistics are computed from that single
point. -/
theorem C4_window_insufficient (now : Int) (m : List (String × List Int)) (series : List Int)
    (hsel : _select_series m PRICE_SERIES_PRIORITY = some series)
    (hwin : (windowPoints now (_decode_compact_series series)).length < MIN_WINDOW_POINTS) :
    ((_build_price_summary now m).2 = insufficientDataFlags) ∧
    (windowPoints now (_decode_compact_series series) = [] →
      fallbackWindow now (_decode_compact_series series) =
        positivePoints (_decode_compact_series series)) ∧
    (fallbackWindow now (_decode_compact_series series) ≠ [] →
      (_build_price_summary now m).1 =
        some (summaryFrom (_decode_compact_series series)
          (fallbackWindow now (_decode_compact_series series)) true)) :=
  buildSummary_insufficient now m series hsel hwin

/-- Claim C4 (witness): the amended statement instantiated at a series with
one in-window point and one stale point. -/
theorem C4_witness :
    ((_build_price_summary 100000 [("AMAZON", [90000, 1000, -80000, 2000])]).2 =
      insufficientDataFlags) ∧
    (windowPoints 100000 (_decode_compact_series [90000, 1000, -80000, 2000]) = [] →
      fallbackWindow 100000 (_decode_compact_series [90000, 1000, -80000, 2000]) =
        positivePoints (_decode_compact_series [90000, 1000, -80000, 2000])) ∧
    (fallbackWindow 100000 (_decode_compact_series [90000, 1000, -80000, 2000]) ≠ [] →
      (_build_price_summary 100000 [("AMAZON", [90000, 1000, -80000, 2000])]).1 =
        some (summaryFrom (_decode_compact_series [90000, 1000, -80000, 2000])
          (fallbackWindow 100000 (_decode_compact_series [90000, 1000, -80000, 2000])) true)) :=
  C4_window_insufficient 100000 [("AMAZON", [90000, 1000, -80000, 2000])]
    [90000, 1000, -80000, 2000] (by decide) (by decide)

/-- Claim C4 (counterexample): the series decodes to an in-window point worth
10.00 and a stale point worth 20.00; the window has exactly one point (fewer
than 2), yet the summary's median is 10.00 - the single window point - and
not 15.00, the median over all positive points of the whole series that the
claim prescribes. -/
theorem C4_counterexample :
    (_build_price_summary 100000 [("AMAZON", [90000, 1000, -80000, 2000])]).1 =
      some { current := 10, median := 10, p10 := 10, p90 := 10, insufficient := true } ∧
    (windowPoints 100000 (_decode_compact_series [90000, 1000, -80000, 2000])).length = 1 ∧
    _median_decimal ((positivePoints (_decode_compact_series [90000, 1000, -80000, 2000])).map
        (fun p => _quantize_price p.2)) = 15 := by
  have hdec : _decode_compact_series [90000, 1000, -80000, 2000] =
      [((90000 : Int), (1000 : Int)), (10000, 2000)] := by decide
  have hq1 : _quantize_price 1000 = 10 := by
    unfold _quantize_price quantize_money roundHalfUp
    norm_num
  have hq2 : _quantize_price 2000 = 20 := by
    unfold _quantize_price quantize_money roundHalfUp
    norm_num
  have hsel : _select_series [("AMAZON", [90000, 1000, -80000, 2000])] PRICE_SERIES_PRIORITY
      = some [90000, 1000, -80000, 2000] := by decide
  have hwin : windowPoints 100000 [((90000 : Int), (1000 : Int)), (10000, 2000)] =
      [(90000, 1000)] := by decide
  have hfall : fallbackWindow 100000 [((90000 : Int), (1000 : Int)), (10000, 2000)] =
      [((90000 : Int), (1000 : Int))] := by decide
  have hfp : firstPositive (sortByTsDesc [((90000 : Int), (1000 : Int)), (10000, 2000)]) =
      some 1000 := by decide
  have hlatest : _latest_price [((90000 : Int), (1000 : Int)), (10000, 2000)] =
      some (_quantize_price 1000) := by
    unfold _latest_price
    rw [hfp]
    rfl
  have hsummary : summaryFrom [((90000 : Int), (1000 : Int)), (10000, 2000)]
      [((90000 : Int), (1000 : Int))] true =
      { current := 10, median := 10, p10 := 10, p90 := 10, insufficient := true } := by
    unfold summaryFrom
    rw [hlatest]
    simp only [List.map]
    rw [hq1]
    norm_num [pySorted, insertAsc, _median_decimal, _percentile_decimal, List.foldl,
      List.getD, List.getLastD]
  refine ⟨?_, ?_, ?_⟩
  · have hlen : (windowPoints 100000 (_decode_compact_series [90000, 1000, -80000, 2000])).length
        < MIN_WINDOW_POINTS := by
      rw [hdec, hwin]
      decide
    have h3 := (buildSummary_insufficient 100000 [("AMAZON", [90000, 1000, -80000, 2000])]
      [90000, 1000, -80000, 2000] hsel hlen).2.2
    rw [h3 (by rw [hdec, hfall]; decide), hdec, hfall, hsummary]
  · rw [hdec, hwin]
    rfl
  · rw [hdec]
    have hpos : positivePoints [((90000 : Int), (1000 : Int)), (10000, 2000)] =
        [(90000, 1000), (10000, 2000)] := by decide
    rw [hpos]
    simp only [List.map]
    rw [hq1, hq2]
    unfold _median_decimal
    rw [if_neg (by decide : ¬([(10 : Rat), 20] = []))]
    norm_num [pySorted, insertAsc, List.foldl, List.getD, quantize_money, roundHalfUp]

end Sedori
